import Mathlib

/-!
A shallow embedding of the authorization / repository core of the
FastAPI_Practice service (app/core/security.py, app/core/dependencies.py,
app/core/repositories.py, app/api/v1/auth.py, app/api/v2/items.py),
together with theorems settling the specification's claims about it.

Conventions of the embedding:
* machine time is a `Nat` of seconds since the epoch;
* a JWT is modelled as an inductive `Token`: either a blob signed with a
  key and algorithm and carrying a claims record, or an unparseable blob
  (`malformed`); `jwt.encode`/`jwt.decode` of python-jose become
  `create_access_token` / `jwtDecode` over this type, with python-jose's
  default expiry validation (expired iff the `exp` claim is < now);
* the relational store behind SQLAlchemy sessions becomes explicit state:
  a `List UsersRow` / `List ItemsRow` threaded through the repository
  operations, with the engine's unique index on `users.username`
  (db/models.py) raising `IntegrityError` at flush modelled as an
  `Except` error;
* raising `HTTPException` becomes returning `.error` of an
  `HTTPException` record (status code, detail, headers);
* the external password hasher (passlib bcrypt) is a parameter: functions
  that call `verify_password` take `verify : String → String → Bool`.
-/

namespace FastApiPractice

/-- JWT claims relevant to this app: `sub`, `scopes`, `exp`; a claim may be
absent from the payload, hence the `Option`s. -/
structure TokenClaims where
  sub : Option String
  scopes : Option (List String)
  exp : Option Nat
  deriving Repr, DecidableEq

/-- A bearer token as the `jose` collaborator sees it: either a well-formed
blob signed with some key and algorithm and embedding claims, or garbage. -/
inductive Token where
  | signed (key : String) (alg : String) (claims : TokenClaims)
  | malformed
  deriving Repr, DecidableEq

/-- app/core/security.py: the static signing secret. -/
def SECRET_KEY : String := "your-super-secret-key-that-is-long-and-random"

/-- app/core/security.py: the fixed signing algorithm identifier. -/
def ALGORITHM : String := "HS256"

/-- app/core/security.py: default token lifetime in minutes. -/
def ACCESS_TOKEN_EXPIRE_MINUTES : Nat := 30

/-- python-jose error classes raised by `jwt.decode`; `expired` is
`ExpiredSignatureError`, a subclass of `JWTError`, so both arms are caught
by `except JWTError`. -/
inductive JWTError where
  | invalid
  | expired
  deriving Repr, DecidableEq

/-- `jose.jwt.decode(token, key, algorithms=[alg])`: fails on garbage or a
key/algorithm mismatch; otherwise validates the `exp` claim against the
current time (expired iff `exp < now`, python-jose with zero leeway) and
returns the claims. -/
def jwtDecode (token : Token) (key : String) (alg : String) (now : Nat) :
    Except JWTError TokenClaims :=
  match token with
  | .malformed => .error .invalid
  | .signed k a claims =>
    if k = key ∧ a = alg then
      match claims.exp with
      | some e => if e < now then .error .expired else .ok claims
      | none => .ok claims
    else .error .invalid

/-- app/core/security.py `create_access_token`: copies the caller's claims,
overwrites `exp` with now + expires_minutes, and signs with the static key
and algorithm. -/
def create_access_token (data : TokenClaims) (expires_minutes : Nat)
    (now : Nat) : Token :=
  .signed SECRET_KEY ALGORITHM { data with exp := some (now + expires_minutes * 60) }

/-- app/db/models.py `Users`: a row of the `users` table (id autoincrement,
username unique). -/
structure UsersRow where
  id : Nat
  username : String
  full_name : Option String
  email : Option String
  is_active : Bool
  scopes : List String
  hashed_password : String
  deriving Repr, DecidableEq

/-- app/models/user.py `UserCreate`: the signup payload. -/
structure UserCreate where
  username : String
  full_name : Option String
  email : Option String
  is_active : Bool
  scopes : List String
  password : String
  deriving Repr, DecidableEq

/-- app/models/user.py `UserRead`: the public projection of a user record
(no hashed password). -/
structure UserRead where
  id : Nat
  username : String
  full_name : Option String
  email : Option String
  is_active : Bool
  scopes : List String
  deriving Repr, DecidableEq

/-- app/models/user.py `UserInDB`: the full record including the stored
password hash (note: no `id` field, unlike `UserRead`). -/
structure UserInDB where
  username : String
  full_name : Option String
  email : Option String
  is_active : Bool
  scopes : List String
  hashed_password : String
  deriving Repr, DecidableEq

/-- The `users` table: the state behind the SQLAlchemy session. -/
abbrev UserStore := List UsersRow

/-- app/core/repositories.py `SQLUserRepo._to_read`: ORM row → `UserRead`. -/
def SQLUserRepo.to_read (obj : UsersRow) : UserRead :=
  { id := obj.id, username := obj.username, full_name := obj.full_name,
    email := obj.email, is_active := obj.is_active, scopes := obj.scopes }

/-- app/core/repositories.py `SQLUserRepo._to_in_db`: ORM row → `UserInDB`,
copying the hashed password along. -/
def SQLUserRepo.to_in_db (obj : UsersRow) : UserInDB :=
  { username := obj.username, full_name := obj.full_name, email := obj.email,
    is_active := obj.is_active, scopes := obj.scopes,
    hashed_password := obj.hashed_password }

/-- `get_current_user` calls `repo._to_in_db(user_in_db)` on a value that is
already a pydantic `UserInDB`, not an ORM row; by duck typing the method
reads the same six attributes off it and rebuilds a `UserInDB`. -/
def SQLUserRepo.to_in_db_dyn (u : UserInDB) : UserInDB :=
  { username := u.username, full_name := u.full_name, email := u.email,
    is_active := u.is_active, scopes := u.scopes,
    hashed_password := u.hashed_password }

/-- app/core/repositories.py `SQLUserRepo.get_by_username`: first row whose
username matches, converted by `_to_in_db`; `None` when absent. -/
def SQLUserRepo.get_by_username (store : UserStore) (username : String) :
    Option UserInDB :=
  (store.find? (fun r => r.username = username)).map SQLUserRepo.to_in_db

/-- Python exception classes that matter to the signup handler: the
handler's `except ValueError` clause catches only `valueError`;
SQLAlchemy's `IntegrityError` is not a `ValueError` subclass. -/
inductive PyExc where
  | valueError
  | integrityError
  deriving Repr, DecidableEq

/-- The next autoincrement id for the users table. -/
def nextUserId (store : UserStore) : Nat :=
  (store.map UsersRow.id).foldl max 0 + 1

/-- app/core/repositories.py `SQLUserRepo.create`: hash the password, insert
the row and flush. The relational engine enforces the unique index on
`username` (db/models.py `unique=True`): a duplicate insert raises
`sqlalchemy.exc.IntegrityError` at flush, leaving the store unchanged. -/
def SQLUserRepo.create (hash : String → String) (store : UserStore)
    (payload : UserCreate) : Except PyExc (UserRead × UserStore) :=
  if store.any (fun r => r.username = payload.username) then
    .error .integrityError
  else
    let row : UsersRow :=
      { id := nextUserId store, username := payload.username,
        full_name := payload.full_name, email := payload.email,
        is_active := payload.is_active, scopes := payload.scopes,
        hashed_password := hash payload.password }
    .ok (SQLUserRepo.to_read row, store ++ [row])

/-- app/core/security.py `authenticate_user`: look the user up by username;
absent → none; otherwise verify the password against the stored hash via
the external hasher; mismatch → none, else the full `UserInDB` record. -/
def authenticate_user (verify : String → String → Bool) (store : UserStore)
    (username password : String) : Option UserInDB :=
  match SQLUserRepo.get_by_username store username with
  | none => none
  | some user =>
    if verify password user.hashed_password then some user else none

/-- A raised `fastapi.HTTPException`: status code, detail message, and the
response headers attached to it. -/
structure HTTPException where
  status_code : Nat
  detail : String
  headers : List (String × String)
  deriving Repr, DecidableEq

/-- app/core/dependencies.py: the 401 raised by `get_current_user`, with the
`WWW-Authenticate: Bearer` challenge header. -/
def unauthorized_exception : HTTPException :=
  { status_code := 401, detail := "Could not validate credentials.",
    headers := [("WWW-Authenticate", "Bearer")] }

/-- app/core/dependencies.py: the 403 raised by `get_current_user`; its
challenge header carries the space-joined list of scopes the endpoint
requires. -/
def forbidden_exception (required_scopes : List String) : HTTPException :=
  { status_code := 403, detail := "Insufficient scopes.",
    headers := [("WWW-Authenticate",
      "Bearer scope=\"" ++ String.intercalate " " required_scopes ++ "\"")] }

/-- The 401 raised by the `OAuth2PasswordBearer` dependency (the
`oauth2_scheme` collaborator from fastapi.security, `auto_error=True`) when
the request carries no bearer token. -/
def not_authenticated_exception : HTTPException :=
  { status_code := 401, detail := "Not authenticated",
    headers := [("WWW-Authenticate", "Bearer")] }

/-- app/core/dependencies.py `get_current_user`, the Authorizer.
Arguments: the endpoint's required scopes (`SecurityScopes`), the bearer
token extracted by `oauth2_scheme` (`none` when the header is missing, in
which case the scheme itself raises 401 before the function body runs), the
user store, and the current time. Body, in source order: decode the token
(any `JWTError`, including expiry, → 401); missing `sub` claim → 401;
`scopes` claim defaulted to `[]`; then, only if the endpoint requested
scopes, require every one of them in the token's scopes, else 403; then the
liveness re-check against the store: unknown subject or `is_active` false →
401; finally return `repo._to_in_db(user_in_db)`, the full `UserInDB`. -/
def get_current_user (required_scopes : List String) (tokenOpt : Option Token)
    (store : UserStore) (now : Nat) : Except HTTPException UserInDB :=
  match tokenOpt with
  | none => .error not_authenticated_exception
  | some token =>
    match jwtDecode token SECRET_KEY ALGORITHM now with
    | .error _ => .error unauthorized_exception
    | .ok payload =>
      match payload.sub with
      | none => .error unauthorized_exception
      | some username =>
        let token_scopes := payload.scopes.getD []
        if required_scopes ≠ [] ∧
            ¬ (∀ scope ∈ required_scopes, scope ∈ token_scopes) then
          .error (forbidden_exception required_scopes)
        else
          match SQLUserRepo.get_by_username store username with
          | none => .error unauthorized_exception
          | some user_in_db =>
            if ¬ user_in_db.is_active then .error unauthorized_exception
            else .ok (SQLUserRepo.to_in_db_dyn user_in_db)

/-- The body of the token-exchange response. -/
structure TokenResponse where
  access_token : Token
  token_type : String
  deriving Repr, DecidableEq

/-- app/api/v1/auth.py `login_for_access_token`: authenticate the form's
username/password; failure → 401 (note: the `HTTPException` is constructed
with no `headers` argument, so no challenge header). On success take the
scopes requested in the OAuth2 form, falling back to the user's stored
scopes when the form's list is empty (Python `form_data.scopes or
user.scopes`), and issue a token for them with the default lifetime. -/
def login_for_access_token (verify : String → String → Bool)
    (store : UserStore) (username password : String)
    (form_scopes : List String) (now : Nat) :
    Except HTTPException TokenResponse :=
  match authenticate_user verify store username password with
  | none =>
    .error { status_code := 401, detail := "Incorrect username or password.",
             headers := [] }
  | some user =>
    let requested_scopes :=
      if form_scopes.isEmpty then user.scopes else form_scopes
    .ok { access_token :=
            create_access_token
              { sub := some user.username, scopes := some requested_scopes,
                exp := none }
              ACCESS_TOKEN_EXPIRE_MINUTES now,
          token_type := "bearer" }

/-- The observable outcome of the signup handler: a 201 with the created
user, a raised `HTTPException`, or an exception the handler did not catch
(surfacing as the framework's 500 Internal Server Error). -/
inductive SignupResult where
  | created (user : UserRead)
  | httpError (e : HTTPException)
  | unhandled (e : PyExc)
  deriving Repr, DecidableEq

/-- app/api/v1/auth.py `signup`: `repo.create(payload)` inside
`try: ... except ValueError:` mapping to a 400 "User already exists.";
any exception other than `ValueError` propagates uncaught. Returns the
outcome and the resulting store. -/
def signup (hash : String → String) (store : UserStore)
    (payload : UserCreate) : SignupResult × UserStore :=
  match SQLUserRepo.create hash store payload with
  | .ok (user, store2) => (.created user, store2)
  | .error .valueError =>
    (.httpError { status_code := 400, detail := "User already exists.",
                  headers := [] }, store)
  | .error e => (.unhandled e, store)

/-- app/db/models.py `Items`: a row of the `items` table. `created_at` is
assigned by the store at insert (server default now); price is kept as a
rational since the repository only stores and copies it. -/
structure ItemsRow where
  id : Nat
  name : String
  description : Option String
  price : Rat
  tags : List String
  in_stock : Bool
  created_at : Nat
  deriving Repr, DecidableEq

/-- app/models/item.py `ItemCreate`. -/
structure ItemCreate where
  name : String
  description : Option String
  price : Rat
  tags : List String
  in_stock : Bool
  deriving Repr, DecidableEq

/-- app/models/item.py `ItemRead`. -/
structure ItemRead where
  id : Nat
  name : String
  description : Option String
  price : Rat
  tags : List String
  in_stock : Bool
  created_at : Nat
  deriving Repr, DecidableEq

/-- app/models/item.py `ItemUpdate`: every field optional; `none` models a
field left unset in the payload, which `model_dump(exclude_unset=True)`
omits. For `description` (a nullable column) an explicit null is itself a
value, hence the nested `Option`. Explicitly passing null for a
non-nullable column is rejected by the engine and not modelled. -/
structure ItemUpdate where
  name : Option String := none
  description : Option (Option String) := none
  price : Option Rat := none
  tags : Option (List String) := none
  in_stock : Option Bool := none
  deriving Repr, DecidableEq

/-- The `items` table. -/
abbrev ItemStore := List ItemsRow

/-- app/core/repositories.py `SQLItemRepo._to_read`. -/
def SQLItemRepo.to_read (obj : ItemsRow) : ItemRead :=
  { id := obj.id, name := obj.name, description := obj.description,
    price := obj.price, tags := obj.tags, in_stock := obj.in_stock,
    created_at := obj.created_at }

/-- The next autoincrement id for the items table. -/
def nextItemId (store : ItemStore) : Nat :=
  (store.map ItemsRow.id).foldl max 0 + 1

/-- app/core/repositories.py `SQLItemRepo.create`: insert a new row built
from the payload; the store assigns `id` and `created_at`. -/
def SQLItemRepo.create (store : ItemStore) (now : Nat)
    (payload : ItemCreate) : ItemRead × ItemStore :=
  let row : ItemsRow :=
    { id := nextItemId store, name := payload.name,
      description := payload.description, price := payload.price,
      tags := payload.tags, in_stock := payload.in_stock,
      created_at := now }
  (SQLItemRepo.to_read row, store ++ [row])

/-- app/core/repositories.py `SQLItemRepo.get`. -/
def SQLItemRepo.get (store : ItemStore) (item_id : Nat) : Option ItemRead :=
  (store.find? (fun r => r.id = item_id)).map SQLItemRepo.to_read

/-- The `for k, v in changes.model_dump(exclude_unset=True).items():
setattr(obj, k, v)` loop of `SQLItemRepo.update`: each field explicitly
present in the payload overwrites the row's field, each unset field is left
as it was; `id` and `created_at` are not fields of `ItemUpdate`, so the
loop never touches them. -/
def applyItemChanges (obj : ItemsRow) (changes : ItemUpdate) : ItemsRow :=
  { obj with
    name := changes.name.getD obj.name,
    description := changes.description.getD obj.description,
    price := changes.price.getD obj.price,
    tags := changes.tags.getD obj.tags,
    in_stock := changes.in_stock.getD obj.in_stock }

/-- app/core/repositories.py `SQLItemRepo.update`: fetch the row by primary
key; absent → `None` with the store untouched; otherwise apply the set
fields, flush and commit, and return the updated row as `ItemRead`. -/
def SQLItemRepo.update (store : ItemStore) (item_id : Nat)
    (changes : ItemUpdate) : Option ItemRead × ItemStore :=
  match store.find? (fun r => r.id = item_id) with
  | none => (none, store)
  | some obj =>
    let obj2 := applyItemChanges obj changes
    (some (SQLItemRepo.to_read obj2),
     store.map (fun r => if r.id = item_id then obj2 else r))

/-- The state the v2 items endpoints act on: the items table plus the
response-cache namespace (the entries the FastAPICache collaborator
currently holds; `FastAPICache.clear()` empties it). -/
structure AppState where
  items : ItemStore
  cache : List (String × String)
  deriving Repr, DecidableEq

/-- app/api/v2/items.py `create_item` (POST ""): create via the repository,
then `await FastAPICache.clear()` — the whole cache namespace is emptied —
then return the created item. -/
def create_item (st : AppState) (now : Nat) (payload : ItemCreate) :
    ItemRead × AppState :=
  let (item, items2) := SQLItemRepo.create st.items now payload
  (item, { items := items2, cache := [] })

/-- app/api/v2/items.py `create_items_bulk` (POST "/bulk"): loop
`repo.create` over the payloads and return the created items. The body
contains no call to `FastAPICache.clear()`. -/
def create_items_bulk (st : AppState) (now : Nat)
    (payloads : List ItemCreate) : List ItemRead × AppState :=
  let (created_items, items2) :=
    payloads.foldl
      (fun acc payload =>
        let (item, s2) := SQLItemRepo.create acc.2 now payload
        (acc.1 ++ [item], s2))
      (([] : List ItemRead), st.items)
  (created_items, { items := items2, cache := st.cache })

/-- app/api/v2/items.py `update_item` (PATCH "/item_id"): the
`get_item_or_404` loader 404s when the id is absent (no cache clear);
otherwise `repo.update`, the safe-guard 404 when the update finds nothing,
then `await FastAPICache.clear()` and return the updated item. -/
def update_item (st : AppState) (item_id : Nat) (changes : ItemUpdate) :
    Except HTTPException ItemRead × AppState :=
  match SQLItemRepo.get st.items item_id with
  | none =>
    (.error { status_code := 404, detail := "Item not found.", headers := [] },
     st)
  | some _ =>
    match SQLItemRepo.update st.items item_id changes with
    | (none, items2) =>
      (.error { status_code := 404, detail := "Item not found.",
                headers := [] },
       { items := items2, cache := st.cache })
    | (some updated, items2) =>
      (.ok updated, { items := items2, cache := [] })

/-! ### Concrete fixtures used by witnesses and counterexamples -/

/-- A stand-in for the external bcrypt hasher, used only to instantiate the
`verify` parameter on concrete inputs. -/
def demoHashFn (password : String) : String := "bcrypt-sim$" ++ password

/-- The matching verifier: true iff the hash is this password's hash. -/
def demoVerify (password hashed : String) : Bool := hashed == demoHashFn password

/-- A registered, active user granted only `items:read`. -/
def hariRow : UsersRow :=
  { id := 1, username := "hari", full_name := some "Hari", email := none,
    is_active := true, scopes := ["items:read"],
    hashed_password := demoHashFn "haridx" }

/-- A registered but deactivated user. -/
def doraRow : UsersRow :=
  { id := 2, username := "dora", full_name := none, email := none,
    is_active := false, scopes := ["items:read", "items:write"],
    hashed_password := demoHashFn "dorapw" }

/-- A two-user credential store. -/
def demoStore : UserStore := [hariRow, doraRow]

/-! ### Theorems for the claims -/

/-- C6: `authenticate_user` returns the full stored record exactly when the
username is present and the password verifies against its stored hash; it
returns none on an unknown username and on a failed verification. -/
theorem authenticate_user_correct (verify : String → String → Bool)
    (store : UserStore) (username password : String) :
    (∀ u, authenticate_user verify store username password = some u ↔
        SQLUserRepo.get_by_username store username = some u ∧
        verify password u.hashed_password = true) ∧
    (SQLUserRepo.get_by_username store username = none →
        authenticate_user verify store username password = none) ∧
    (∀ u, SQLUserRepo.get_by_username store username = some u →
        verify password u.hashed_password = false →
        authenticate_user verify store username password = none) := by
  refine ⟨?_, ?_, ?_⟩
  · intro u
    unfold authenticate_user
    cases hg : SQLUserRepo.get_by_username store username with
    | none => simp
    | some v =>
      by_cases hv : verify password v.hashed_password
      · simp only [hv, if_pos]
        constructor
        · rintro h; cases h; exact ⟨rfl, hv⟩
        · rintro ⟨h1, h2⟩; cases h1; rfl
      · simp only [Bool.not_eq_true] at hv
        simp only [hv]
        constructor
        · intro h; simp at h
        · rintro ⟨h1, h2⟩; cases h1; rw [hv] at h2; cases h2
  · intro hnone
    unfold authenticate_user
    rw [hnone]
  · intro u hu hv
    unfold authenticate_user
    rw [hu]
    simp [hv]

/-- Witness for C6 at concrete inputs: the registered pair succeeds and
returns the full record; a wrong password and an unknown username both
return none. -/
theorem authenticate_user_correct_witness :
    authenticate_user demoVerify demoStore "hari" "haridx" =
      some (SQLUserRepo.to_in_db hariRow) ∧
    authenticate_user demoVerify demoStore "hari" "wrong-pass" = none ∧
    authenticate_user demoVerify demoStore "nobody" "haridx" = none := by
  refine ⟨?_, ?_, ?_⟩
  · exact ((authenticate_user_correct demoVerify demoStore "hari" "haridx").1
      (SQLUserRepo.to_in_db hariRow)).mpr ⟨by decide, by decide⟩
  · exact (authenticate_user_correct demoVerify demoStore "hari" "wrong-pass").2.2
      (SQLUserRepo.to_in_db hariRow) (by decide) (by decide)
  · exact (authenticate_user_correct demoVerify demoStore "nobody" "haridx").2.1
      (by decide)

/-- C5: `SQLItemRepo.update` has merge semantics. On a missing id it
returns none and leaves the store untouched. On an existing row it returns
a row whose every field equals the payload's value when that field was
explicitly set and the prior value otherwise, with `id` and `created_at`
always unchanged; every other stored row is preserved, and every row of the
new store is either the updated row or an original one. -/
theorem item_update_frame (store : ItemStore) (item_id : Nat)
    (changes : ItemUpdate) :
    (store.find? (fun r => r.id = item_id) = none →
      SQLItemRepo.update store item_id changes = (none, store)) ∧
    (∀ obj, store.find? (fun r => r.id = item_id) = some obj →
      ∃ r store2,
        SQLItemRepo.update store item_id changes = (some r, store2) ∧
        r.id = obj.id ∧
        r.created_at = obj.created_at ∧
        r.name = changes.name.getD obj.name ∧
        r.description = changes.description.getD obj.description ∧
        r.price = changes.price.getD obj.price ∧
        r.tags = changes.tags.getD obj.tags ∧
        r.in_stock = changes.in_stock.getD obj.in_stock ∧
        store2.length = store.length ∧
        (∀ row ∈ store, row.id ≠ item_id → row ∈ store2) ∧
        (∀ row2 ∈ store2,
          row2 = applyItemChanges obj changes ∨ row2 ∈ store)) := by
  constructor
  · intro hnone
    unfold SQLItemRepo.update
    rw [hnone]
  · intro obj hfind
    refine ⟨SQLItemRepo.to_read (applyItemChanges obj changes),
      store.map (fun r => if r.id = item_id then applyItemChanges obj changes else r),
      ?_, rfl, rfl, rfl, rfl, rfl, rfl, rfl, by simp, ?_, ?_⟩
    · unfold SQLItemRepo.update
      rw [hfind]
    · intro row hrow hne
      have : (if row.id = item_id then applyItemChanges obj changes else row) = row := by
        rw [if_neg hne]
      rw [← this]
      exact List.mem_map_of_mem _ hrow
    · intro row2 hrow2
      rcases List.mem_map.mp hrow2 with ⟨row, hrow, heq⟩
      by_cases hid : row.id = item_id
      · left; rw [← heq, if_pos hid]
      · right; rw [← heq, if_neg hid]; exact hrow

/-- Witness for C5 at concrete inputs: a store with two items, an update of
item 1 carrying only `price := 10`; and an update of the absent id 99. -/
theorem item_update_frame_witness :
    SQLItemRepo.update
        [{ id := 1, name := "pen", description := none, price := 3,
           tags := ["office"], in_stock := true, created_at := 1000 },
         { id := 2, name := "ink", description := some "blue", price := 7,
           tags := [], in_stock := false, created_at := 1001 }]
        1 { price := some 10 } =
      (some { id := 1, name := "pen", description := none, price := 10,
              tags := ["office"], in_stock := true, created_at := 1000 },
       [{ id := 1, name := "pen", description := none, price := 10,
          tags := ["office"], in_stock := true, created_at := 1000 },
        { id := 2, name := "ink", description := some "blue", price := 7,
          tags := [], in_stock := false, created_at := 1001 }]) ∧
    SQLItemRepo.update
        [{ id := 1, name := "pen", description := none, price := 3,
           tags := ["office"], in_stock := true, created_at := 1000 }]
        99 { price := some 10 } =
      (none,
       [{ id := 1, name := "pen", description := none, price := 3,
          tags := ["office"], in_stock := true, created_at := 1000 }]) := by
  constructor
  · have h := (item_update_frame
      [{ id := 1, name := "pen", description := none, price := 3,
         tags := ["office"], in_stock := true, created_at := 1000 },
       { id := 2, name := "ink", description := some "blue", price := 7,
         tags := [], in_stock := false, created_at := 1001 }]
      1 { price := some 10 }).2
      { id := 1, name := "pen", description := none, price := 3,
        tags := ["office"], in_stock := true, created_at := 1000 }
      (by decide)
    decide
  · exact (item_update_frame
      [{ id := 1, name := "pen", description := none, price := 3,
         tags := ["office"], in_stock := true, created_at := 1000 }]
      99 { price := some 10 }).1 (by decide)

/-- C1: for a call with a cryptographically valid token (decode succeeds
and a subject is present), if every required scope is among the token's
granted scopes — in particular when no scope is required — the scope gate
passes and the call proceeds to the liveness check against the store; if
some required scope is absent, the call fails with the 403 forbidden
exception (which is not a 401). -/
theorem authorizer_scope_gate (required : List String) (claims : TokenClaims)
    (tok : Token) (store : UserStore) (now : Nat) (uname : String)
    (hdec : jwtDecode tok SECRET_KEY ALGORITHM now = .ok claims)
    (hsub : claims.sub = some uname) :
    ((∀ scope ∈ required, scope ∈ claims.scopes.getD []) →
      get_current_user required (some tok) store now =
        match SQLUserRepo.get_by_username store uname with
        | none => .error unauthorized_exception
        | some user_in_db =>
          if ¬ user_in_db.is_active then .error unauthorized_exception
          else .ok (SQLUserRepo.to_in_db_dyn user_in_db)) ∧
    ((∃ scope ∈ required, scope ∉ claims.scopes.getD []) →
      get_current_user required (some tok) store now =
        .error (forbidden_exception required) ∧
      (forbidden_exception required).status_code = 403 ∧
      (forbidden_exception required).status_code ≠ 401) := by
  constructor
  · intro hsubset
    simp only [get_current_user, hdec, hsub]
    rw [if_neg]
    intro hcond
    exact hcond.2 hsubset
  · intro hmissing
    rcases hmissing with ⟨scope, hmem, habs⟩
    refine ⟨?_, rfl, by simp [forbidden_exception]⟩
    simp only [get_current_user, hdec, hsub]
    rw [if_pos]
    exact ⟨List.ne_nil_of_mem hmem, fun hall => habs (hall scope hmem)⟩

/-- Witness for C1 at concrete inputs: a valid token for the active user
granted `items:read`; requiring `items:read` passes the gate (the call
returns the user), requiring `items:write` fails with the 403. -/
theorem authorizer_scope_gate_witness :
    get_current_user ["items:read"]
        (some (Token.signed SECRET_KEY ALGORITHM
          { sub := some "hari", scopes := some ["items:read"],
            exp := some 1800 }))
        demoStore 5 = .ok (SQLUserRepo.to_in_db hariRow) ∧
    get_current_user ["items:write"]
        (some (Token.signed SECRET_KEY ALGORITHM
          { sub := some "hari", scopes := some ["items:read"],
            exp := some 1800 }))
        demoStore 5 = .error (forbidden_exception ["items:write"]) := by
  constructor
  · have h := (authorizer_scope_gate ["items:read"]
      { sub := some "hari", scopes := some ["items:read"], exp := some 1800 }
      (Token.signed SECRET_KEY ALGORITHM
        { sub := some "hari", scopes := some ["items:read"], exp := some 1800 })
      demoStore 5 "hari" rfl rfl).1 (by decide)
    rw [h]
    rfl
  · exact ((authorizer_scope_gate ["items:write"]
      { sub := some "hari", scopes := some ["items:read"], exp := some 1800 }
      (Token.signed SECRET_KEY ALGORITHM
        { sub := some "hari", scopes := some ["items:read"], exp := some 1800 })
      demoStore 5 "hari" rfl rfl).2
      ⟨"items:write", by decide, by decide⟩).1

/-- C2: with a valid token whose scope gate passes (no scopes required, or
all required scopes granted), a subject that is missing from the store or
is stored with `is_active = false` makes the call fail with the 401
unauthorized exception — the liveness re-check against the store on each
call. -/
theorem authorizer_inactive_unauthorized (required : List String)
    (claims : TokenClaims) (tok : Token) (store : UserStore) (now : Nat)
    (uname : String)
    (hdec : jwtDecode tok SECRET_KEY ALGORITHM now = .ok claims)
    (hsub : claims.sub = some uname)
    (hscope : ∀ scope ∈ required, scope ∈ claims.scopes.getD [])
    (huser : SQLUserRepo.get_by_username store uname = none ∨
      ∃ u, SQLUserRepo.get_by_username store uname = some u ∧
        u.is_active = false) :
    get_current_user required (some tok) store now =
      .error unauthorized_exception ∧
    unauthorized_exception.status_code = 401 := by
  refine ⟨?_, rfl⟩
  simp only [get_current_user, hdec, hsub]
  rw [if_neg (fun hcond => hcond.2 hscope)]
  rcases huser with hnone | ⟨u, hu, hinact⟩
  · rw [hnone]
  · rw [hu]
    simp [hinact]

/-- Witness for C2 at concrete inputs: a valid, unexpired token for the
deactivated user fails with the 401, as does a valid token whose subject is
not in the store. -/
theorem authorizer_inactive_unauthorized_witness :
    get_current_user []
        (some (Token.signed SECRET_KEY ALGORITHM
          { sub := some "dora", scopes := some ["items:read", "items:write"],
            exp := some 1800 }))
        demoStore 5 = .error unauthorized_exception ∧
    get_current_user []
        (some (Token.signed SECRET_KEY ALGORITHM
          { sub := some "ghost", scopes := some [], exp := some 1800 }))
        demoStore 5 = .error unauthorized_exception := by
  constructor
  · exact (authorizer_inactive_unauthorized []
      { sub := some "dora", scopes := some ["items:read", "items:write"],
        exp := some 1800 }
      (Token.signed SECRET_KEY ALGORITHM
        { sub := some "dora", scopes := some ["items:read", "items:write"],
          exp := some 1800 })
      demoStore 5 "dora" rfl rfl (by decide)
      (Or.inr ⟨SQLUserRepo.to_in_db doraRow, by decide, by decide⟩)).1
  · exact (authorizer_inactive_unauthorized []
      { sub := some "ghost", scopes := some [], exp := some 1800 }
      (Token.signed SECRET_KEY ALGORITHM
        { sub := some "ghost", scopes := some [], exp := some 1800 })
      demoStore 5 "ghost" rfl rfl (by decide)
      (Or.inl (by decide))).1

/-- C3: decoding the token produced by `create_access_token` for a subject,
scope list and positive ttl, with the same static key and algorithm, at any
time before issuance + ttl yields the `sub` and `scopes` claims unchanged
(with `exp` set to issuance + ttl); at any time after issuance + ttl it
fails with the expiry error, which the Authorizer maps to the 401
unauthorized exception. -/
theorem token_roundtrip (subj : String) (scopes : List String)
    (ttl issued t : Nat) (httl : 0 < ttl) :
    (t < issued + ttl * 60 →
      jwtDecode
          (create_access_token
            { sub := some subj, scopes := some scopes, exp := none } ttl issued)
          SECRET_KEY ALGORITHM t =
        .ok { sub := some subj, scopes := some scopes,
              exp := some (issued + ttl * 60) }) ∧
    (issued + ttl * 60 < t →
      jwtDecode
          (create_access_token
            { sub := some subj, scopes := some scopes, exp := none } ttl issued)
          SECRET_KEY ALGORITHM t = .error .expired ∧
      ∀ required store,
        get_current_user required
            (some (create_access_token
              { sub := some subj, scopes := some scopes, exp := none } ttl issued))
            store t = .error unauthorized_exception) := by
  constructor
  · intro hbefore
    simp only [create_access_token, jwtDecode]
    rw [if_pos ⟨trivial, trivial⟩, if_neg (by omega)]
  · intro hafter
    have hdec : jwtDecode
        (create_access_token
          { sub := some subj, scopes := some scopes, exp := none } ttl issued)
        SECRET_KEY ALGORITHM t = .error .expired := by
      simp only [create_access_token, jwtDecode]
      rw [if_pos ⟨trivial, trivial⟩, if_pos hafter]
    refine ⟨hdec, ?_⟩
    intro required store
    simp only [get_current_user, hdec]

/-- Witness for C3 at concrete inputs: a 30-minute token issued at time 0
decodes to its claims at time 100 and fails as expired (hence 401 from the
Authorizer) at time 2000. -/
theorem token_roundtrip_witness :
    jwtDecode
        (create_access_token
          { sub := some "hari", scopes := some ["items:read"], exp := none }
          30 0)
        SECRET_KEY ALGORITHM 100 =
      .ok { sub := some "hari", scopes := some ["items:read"],
            exp := some 1800 } ∧
    jwtDecode
        (create_access_token
          { sub := some "hari", scopes := some ["items:read"], exp := none }
          30 0)
        SECRET_KEY ALGORITHM 2000 = .error .expired ∧
    get_current_user []
        (some (create_access_token
          { sub := some "hari", scopes := some ["items:read"], exp := none }
          30 0))
        demoStore 2000 = .error unauthorized_exception := by
  refine ⟨?_, ?_, ?_⟩
  · exact (token_roundtrip "hari" ["items:read"] 30 0 100 (by decide)).1
      (by decide)
  · exact ((token_roundtrip "hari" ["items:read"] 30 0 2000 (by decide)).2
      (by decide)).1
  · exact ((token_roundtrip "hari" ["items:read"] 30 0 2000 (by decide)).2
      (by decide)).2 [] demoStore

/-- The concrete signup payload used for the duplicate-signup run. -/
def demoUserPayload : UserCreate :=
  { username := "hari", full_name := some "Hari", email := none,
    is_active := true, scopes := ["items:read"], password := "haridx" }

/-- C4 (failing input): on a fresh store the signup succeeds and inserts
`hariRow`; repeating the same signup hits the unique index, and the raised
`IntegrityError` is not caught by the handler's `except ValueError` clause,
so instead of the 400 "User already exists." response the exception
propagates out of the handler (a 500-class internal error). -/
theorem signup_duplicate_uncaught :
    signup demoHashFn [] demoUserPayload =
      (.created (SQLUserRepo.to_read hariRow), [hariRow]) ∧
    signup demoHashFn [hariRow] demoUserPayload =
      (.unhandled .integrityError, [hariRow]) := by
  constructor
  · rfl
  · rfl

/-- A cached read response sitting in the items cache namespace. -/
def demoCachedEntry : String × String :=
  ("fastapi-cache:items-list", "stale-response")

/-- The item payload used by the cache-invalidation runs. -/
def demoItemPayload : ItemCreate :=
  { name := "pen", description := none, price := 3, tags := ["office"],
    in_stock := true }

/-- C7 (failing input): with one cached read response present, the bulk
create endpoint creates its item — the write completes — yet returns with
the cache untouched, while the single create and the partial update do
clear the whole namespace before returning. -/
theorem bulk_create_skips_cache_invalidation :
    create_items_bulk { items := [], cache := [demoCachedEntry] } 50
        [demoItemPayload] =
      ([{ id := 1, name := "pen", description := none, price := 3,
          tags := ["office"], in_stock := true, created_at := 50 }],
       { items := [{ id := 1, name := "pen", description := none, price := 3,
                     tags := ["office"], in_stock := true, created_at := 50 }],
         cache := [demoCachedEntry] }) ∧
    (create_item { items := [], cache := [demoCachedEntry] } 50
        demoItemPayload).2.cache = [] ∧
    (update_item
        { items := [{ id := 1, name := "pen", description := none, price := 3,
                      tags := ["office"], in_stock := true,
                      created_at := 50 }],
          cache := [demoCachedEntry] }
        1 { price := some 10 }).2.cache = [] := by
  refine ⟨rfl, rfl, rfl⟩

/-- C8 (counterexample): the token-exchange endpoint's 401 on bad
credentials is raised with no `headers` argument — its response carries no
challenge header, contradicting the claim that every 401 produced by the
system includes one. -/
theorem login_401_no_challenge_header :
    login_for_access_token demoVerify demoStore "hari" "wrong-pass" [] 0 =
      .error { status_code := 401,
               detail := "Incorrect username or password.",
               headers := [] } := by
  rfl

/-- C8 (amended): every error raised by the Authorizer with status 401
carries the `WWW-Authenticate: Bearer` challenge header (including the
missing-token 401 from the bearer scheme), and every 403 it raises is the
forbidden exception carrying the endpoint's required-scope list; the
token-exchange endpoint's error, however, is a 401 with an empty header
list. -/
theorem error_response_headers :
    (∀ required tokenOpt store now e,
      get_current_user required tokenOpt store now = .error e →
      (e.status_code = 401 → ("WWW-Authenticate", "Bearer") ∈ e.headers) ∧
      (e.status_code = 403 → e = forbidden_exception required)) ∧
    (∀ verify store username password form_scopes now e,
      login_for_access_token verify store username password form_scopes now =
        .error e →
      e.status_code = 401 ∧ e.headers = []) := by
  constructor
  · intro required tokenOpt store now e herr
    cases tokenOpt with
    | none =>
      simp only [get_current_user] at herr
      injection herr with h
      subst h
      exact ⟨fun _ => by decide, fun h403 => by
        simp [not_authenticated_exception] at h403⟩
    | some tok =>
      simp only [get_current_user] at herr
      cases hdec : jwtDecode tok SECRET_KEY ALGORITHM now with
      | error err =>
        rw [hdec] at herr
        injection herr with h
        subst h
        exact ⟨fun _ => by decide, fun h403 => by
          simp [unauthorized_exception] at h403⟩
      | ok payload =>
        simp only [hdec] at herr
        cases hsub : payload.sub with
        | none =>
          simp only [hsub] at herr
          injection herr with h
          subst h
          exact ⟨fun _ => by decide, fun h403 => by
            simp [unauthorized_exception] at h403⟩
        | some uname =>
          simp only [hsub] at herr
          by_cases hcond : required ≠ [] ∧
              ¬ ∀ scope ∈ required, scope ∈ payload.scopes.getD []
          · rw [if_pos hcond] at herr
            injection herr with h
            subst h
            exact ⟨fun h401 => by simp [forbidden_exception] at h401,
              fun _ => rfl⟩
          · rw [if_neg hcond] at herr
            cases huser : SQLUserRepo.get_by_username store uname with
            | none =>
              simp only [huser] at herr
              injection herr with h
              subst h
              exact ⟨fun _ => by decide, fun h403 => by
                simp [unauthorized_exception] at h403⟩
            | some u =>
              simp only [huser] at herr
              cases hact : u.is_active with
              | true =>
                rw [hact] at herr
                rw [if_neg (by decide : ¬ ¬ true = true)] at herr
                simp at herr
              | false =>
                rw [hact] at herr
                rw [if_pos (by decide : ¬ false = true)] at herr
                injection herr with h
                subst h
                exact ⟨fun _ => by decide, fun h403 => by
                  simp [unauthorized_exception] at h403⟩
  · intro verify store username password form_scopes now e herr
    simp only [login_for_access_token] at herr
    cases hauth : authenticate_user verify store username password with
    | none =>
      rw [hauth] at herr
      injection herr with h
      subst h
      exact ⟨rfl, rfl⟩
    | some user =>
      rw [hauth] at herr
      simp at herr

/-- Witness for C8 (amended) at concrete inputs: the Authorizer's 401 on an
expired token carries the challenge header, its 403 on a missing scope is
the forbidden exception for the required scopes, and the token-exchange 401
has empty headers. -/
theorem error_response_headers_witness :
    (("WWW-Authenticate", "Bearer") ∈ unauthorized_exception.headers) ∧
    (forbidden_exception ["items:write"] =
      forbidden_exception ["items:write"]) ∧
    (HTTPException.headers
      { status_code := 401, detail := "Incorrect username or password.",
        headers := [] } = []) := by
  refine ⟨?_, ?_, ?_⟩
  · exact (error_response_headers.1 []
      (some (Token.signed SECRET_KEY ALGORITHM
        { sub := some "hari", scopes := some [], exp := some 10 }))
      demoStore 100 unauthorized_exception rfl).1 rfl
  · exact (error_response_headers.1 ["items:write"]
      (some (Token.signed SECRET_KEY ALGORITHM
        { sub := some "hari", scopes := some ["items:read"],
          exp := some 1800 }))
      demoStore 5 (forbidden_exception ["items:write"]) rfl).2 rfl
  · exact (error_response_headers.2 demoVerify demoStore "hari" "wrong-pass"
      [] 0
      { status_code := 401, detail := "Incorrect username or password.",
        headers := [] } rfl).2

/-- C9 (failing input): a routine successful Authorizer call — valid token,
active user — returns the full `UserInDB` record, whose `hashed_password`
field is exactly the hash stored in the credential store; the handler
therefore receives the stored password hash. -/
theorem authorizer_returns_hashed_password :
    get_current_user []
        (some (Token.signed SECRET_KEY ALGORITHM
          { sub := some "hari", scopes := some ["items:read"],
            exp := some 1800 }))
        demoStore 5 =
      .ok { username := "hari", full_name := some "Hari", email := none,
            is_active := true, scopes := ["items:read"],
            hashed_password := demoHashFn "haridx" } ∧
    UserInDB.hashed_password
        { username := "hari", full_name := some "Hari", email := none,
          is_active := true, scopes := ["items:read"],
          hashed_password := demoHashFn "haridx" } =
      hariRow.hashed_password := by
  exact ⟨rfl, rfl⟩

/-- C10: on a successful exchange the issued token embeds exactly the
scopes requested in the OAuth2 form when that list is non-empty, and the
user's stored scopes when the form requests none — no subset check against
the user's granted scopes is performed. Concretely, the user granted only
`items:read` obtains a token carrying the requested `items:write` scope,
and that token then passes the Authorizer's scope gate for an endpoint
requiring `items:write`. -/
theorem token_exchange_scopes :
    (∀ verify store username password form_scopes now user,
      authenticate_user verify store username password = some user →
      form_scopes ≠ [] →
      login_for_access_token verify store username password form_scopes now =
        .ok { access_token := Token.signed SECRET_KEY ALGORITHM
                { sub := some user.username, scopes := some form_scopes,
                  exp := some (now + 1800) },
              token_type := "bearer" }) ∧
    (∀ verify store username password now user,
      authenticate_user verify store username password = some user →
      login_for_access_token verify store username password [] now =
        .ok { access_token := Token.signed SECRET_KEY ALGORITHM
                { sub := some user.username, scopes := some user.scopes,
                  exp := some (now + 1800) },
              token_type := "bearer" }) ∧
    ("items:write" ∉ hariRow.scopes ∧
      login_for_access_token demoVerify demoStore "hari" "haridx"
          ["items:write"] 0 =
        .ok { access_token := Token.signed SECRET_KEY ALGORITHM
                { sub := some "hari", scopes := some ["items:write"],
                  exp := some 1800 },
              token_type := "bearer" } ∧
      get_current_user ["items:write"]
          (some (Token.signed SECRET_KEY ALGORITHM
            { sub := some "hari", scopes := some ["items:write"],
              exp := some 1800 }))
          demoStore 5 = .ok (SQLUserRepo.to_in_db hariRow)) := by
  refine ⟨?_, ?_, by decide, rfl, rfl⟩
  · intro verify store username password form_scopes now user hauth hne
    simp only [login_for_access_token, hauth]
    cases form_scopes with
    | nil => exact absurd rfl hne
    | cons a l => rfl
  · intro verify store username password now user hauth
    simp only [login_for_access_token, hauth]
    rfl

/-- Witness for C10 at concrete inputs: a non-empty requested scope list is
embedded verbatim, and an empty one falls back to the stored scopes. -/
theorem token_exchange_scopes_witness :
    login_for_access_token demoVerify demoStore "hari" "haridx"
        ["items:write"] 0 =
      .ok { access_token := Token.signed SECRET_KEY ALGORITHM
              { sub := some "hari", scopes := some ["items:write"],
                exp := some 1800 },
            token_type := "bearer" } ∧
    login_for_access_token demoVerify demoStore "hari" "haridx" [] 0 =
      .ok { access_token := Token.signed SECRET_KEY ALGORITHM
              { sub := some "hari", scopes := some ["items:read"],
                exp := some 1800 },
            token_type := "bearer" } := by
  constructor
  · exact token_exchange_scopes.1 demoVerify demoStore "hari" "haridx"
      ["items:write"] 0 (SQLUserRepo.to_in_db hariRow) rfl (by decide)
  · exact token_exchange_scopes.2.1 demoVerify demoStore "hari" "haridx" 0
      (SQLUserRepo.to_in_db hariRow) rfl

end FastApiPractice
